import Mathlib

/-!
Verification of the health-monitoring subsystem of the telebot repository
(src/keep_alive.py, src/web_server.py, src/bot.py), as a shallow embedding.

Conventions of the embedding:
* Timestamps are abstracted to natural numbers; wall-clock reads that the
  Python code performs via datetime.now() become explicit parameters.
* aiohttp request outcomes are abstracted into the inductive `ProbeOutcome`:
  either the request completed with some HTTP status, or it raised
  asyncio.TimeoutError, aiohttp.ClientError, or any other Exception, which
  are exactly the except-arms of UptimeMonitor.ping_service.
* Python floats are modelled as rationals; round(x, 2) is modelled by
  `round2` (round to an integer multiple of 1/100).
* A Python coroutine that may raise is modelled as a function into
  Except String _; a function whose every path returns is modelled as a
  total Lean function.
-/

/-- State of an UptimeMonitor instance (src/keep_alive.py, UptimeMonitor).
`start_time` is kept outside the record: it is set once at construction and
only read together with a now-timestamp, which we pass explicitly. -/
structure MonitorState where
  url : String
  interval : Nat
  timeout : Nat
  ping_count : Nat
  failed_pings : Nat
  last_ping : Option Nat
  is_running : Bool
deriving DecidableEq, Repr

namespace UptimeMonitor

/-- UptimeMonitor.__init__(url, interval=300, timeout=10): optional Python
keyword arguments are modelled as Option parameters with getD supplying the
source defaults. -/
def init (url : String) (interval : Option Nat) (timeout : Option Nat) : MonitorState :=
  { url := url
    interval := interval.getD 300
    timeout := timeout.getD 10
    ping_count := 0
    failed_pings := 0
    last_ping := none
    is_running := false }

end UptimeMonitor

/-- Outcome of one HTTP GET issued by ping_service: the request either
completed with an HTTP status, or raised one of the three caught exception
classes (asyncio.TimeoutError, aiohttp.ClientError, anything else). -/
inductive ProbeOutcome where
  | httpResponse (status : Nat)
  | timeoutError
  | clientError
  | unexpectedError
deriving DecidableEq, Repr

namespace UptimeMonitor

/-- UptimeMonitor.ping_service (src/keep_alive.py lines 30-59), faithful to
the source: ping_count and last_ping are updated inside the try block, after
the response object is obtained; the three except-arms increment
failed_pings only and return False. `now` is the datetime.now() read. -/
def ping_service (s : MonitorState) (o : ProbeOutcome) (now : Nat) : MonitorState × Bool :=
  match o with
  | ProbeOutcome.httpResponse status =>
    let s1 := { s with ping_count := s.ping_count + 1, last_ping := some now }
    if status = 200 then
      (s1, true)
    else
      ({ s1 with failed_pings := s1.failed_pings + 1 }, false)
  | ProbeOutcome.timeoutError =>
    ({ s with failed_pings := s.failed_pings + 1 }, false)
  | ProbeOutcome.clientError =>
    ({ s with failed_pings := s.failed_pings + 1 }, false)
  | ProbeOutcome.unexpectedError =>
    ({ s with failed_pings := s.failed_pings + 1 }, false)

/-- Run a sequence of ping_service calls from a state; the timestamps are
irrelevant to the counters, so every call reads time 0. -/
def run_probes (s : MonitorState) : List ProbeOutcome → MonitorState
  | [] => s
  | o :: os => run_probes (ping_service s o 0).1 os

end UptimeMonitor

/-- Python round(x, 2) on the success-rate value: round to the nearest
multiple of 1/100 (tie behaviour at half-ulp is immaterial to the claims). -/
def round2 (q : ℚ) : ℚ := (round (q * 100) : ℤ) / 100

/-- The dictionary returned by get_uptime_stats, minus the two raw
timestamp strings (start_time and last_ping ISO strings carry no logic). -/
structure UptimeStats where
  uptime_seconds : Nat
  uptime_formatted : String
  last_ping : Option Nat
  total_pings : Nat
  failed_pings : Nat
  success_rate : ℚ
deriving DecidableEq, Repr

namespace UptimeMonitor

/-- Duration-unit tokens shared by the two formatters. -/
inductive DUnit where
  | day
  | hour
  | minute
  | second
deriving DecidableEq, Repr

/-- Token list built by UptimeMonitor.format_duration (src/keep_alive.py
lines 80-97): each parts.append of an f-string is one (unit, value) token;
the final seconds append is guarded by `secs > 0 or not parts`. -/
def duration_tokens (s : Nat) : List (DUnit × Nat) :=
  let days := s / 86400
  let hours := s % 86400 / 3600
  let minutes := s % 3600 / 60
  let secs := s % 60
  let parts : List (DUnit × Nat) := []
  let parts := if days > 0 then parts ++ [(DUnit.day, days)] else parts
  let parts := if hours > 0 then parts ++ [(DUnit.hour, hours)] else parts
  let parts := if minutes > 0 then parts ++ [(DUnit.minute, minutes)] else parts
  if secs > 0 ∨ parts = [] then parts ++ [(DUnit.second, secs)] else parts

/-- The f-string of one token in format_duration: the numeral followed by a
one-letter Cyrillic unit suffix. -/
def render_token : DUnit × Nat → String
  | (DUnit.day, v) => toString v ++ "д"
  | (DUnit.hour, v) => toString v ++ "ч"
  | (DUnit.minute, v) => toString v ++ "м"
  | (DUnit.second, v) => toString v ++ "с"

/-- UptimeMonitor.format_duration: the tokens joined by a single space. -/
def format_duration (s : Nat) : String :=
  String.intercalate " " ((duration_tokens s).map render_token)

/-- UptimeMonitor.get_uptime_stats (src/keep_alive.py lines 61-78).
`uptime` is datetime.now() - start_time, passed in as whole seconds. The
success-rate expression keeps the source shape: the guard is ping_count > 0
with else-branch 0, and round(_, 2) is applied to the result. -/
def get_uptime_stats (s : MonitorState) (uptime : Nat) : UptimeStats :=
  let success_rate : ℚ :=
    if s.ping_count > 0 then
      ((s.ping_count : ℚ) - (s.failed_pings : ℚ)) / (s.ping_count : ℚ) * 100
    else 0
  { uptime_seconds := uptime
    uptime_formatted := format_duration uptime
    last_ping := s.last_ping
    total_pings := s.ping_count
    failed_pings := s.failed_pings
    success_rate := round2 success_rate }

end UptimeMonitor

/-- Success rate as the specification words it: exactly 0 when
ping_count == 0, otherwise (ping_count - failed_pings) / ping_count * 100
rounded to 2 decimal places. -/
def spec_success_rate (ping_count failed_pings : Nat) : ℚ :=
  if ping_count = 0 then 0
  else round2 (((ping_count : ℚ) - (failed_pings : ℚ)) / (ping_count : ℚ) * 100)

/-- Duration tokens as the specification words them: decompose seconds into
days/hours/minutes/seconds by truncating division, keep the units in
day-hour-minute-second order, omit every unit whose value is zero, except
that the seconds token is included whenever all other units are zero. -/
def spec_duration_tokens (s : Nat) : List (UptimeMonitor.DUnit × Nat) :=
  let days := s / 86400
  let hours := s % 86400 / 3600
  let minutes := s % 3600 / 60
  let secs := s % 60
  (([(UptimeMonitor.DUnit.day, days), (UptimeMonitor.DUnit.hour, hours),
      (UptimeMonitor.DUnit.minute, minutes)].filter (fun p => p.2 > 0))
    ++ (if secs > 0 ∨ (days = 0 ∧ hours = 0 ∧ minutes = 0)
        then [(UptimeMonitor.DUnit.second, secs)] else []))

namespace HealthCheckServer

/-- The Russian unit name appended in HealthCheckServer.format_uptime for
the days token, suffix chosen by the value exactly as the source nests its
conditional expressions. -/
def day_name (v : Nat) : String :=
  "день" ++ (if v = 1 then "" else if 2 ≤ v ∧ v ≤ 4 then "а" else "ей")

/-- Unit name for the hours token of format_uptime. -/
def hour_name (v : Nat) : String :=
  "час" ++ (if v = 1 then "" else if 2 ≤ v ∧ v ≤ 4 then "а" else "ов")

/-- Unit name for the minutes token of format_uptime. -/
def minute_name (v : Nat) : String :=
  "минут" ++ (if v = 1 then "а" else if 2 ≤ v ∧ v ≤ 4 then "ы" else "")

/-- Unit name for the seconds token of format_uptime. -/
def second_name (v : Nat) : String :=
  "секунд" ++ (if v = 1 then "а" else if 2 ≤ v ∧ v ≤ 4 then "ы" else "")

/-- The f-string of one token in format_uptime: the numeral, a space, and
the pluralized unit name. -/
def render_token : UptimeMonitor.DUnit × Nat → String
  | (UptimeMonitor.DUnit.day, v) => toString v ++ " " ++ day_name v
  | (UptimeMonitor.DUnit.hour, v) => toString v ++ " " ++ hour_name v
  | (UptimeMonitor.DUnit.minute, v) => toString v ++ " " ++ minute_name v
  | (UptimeMonitor.DUnit.second, v) => toString v ++ " " ++ second_name v

/-- Token list built by HealthCheckServer.format_uptime (src/web_server.py
lines 110-139): the unit decomposition, the append guards and their order
are copied from the source; only the rendered text of each token differs
from UptimeMonitor.format_duration. -/
def uptime_tokens (s : Nat) : List (UptimeMonitor.DUnit × Nat) :=
  let days := s / 86400
  let hours := s % 86400 / 3600
  let minutes := s % 3600 / 60
  let secs := s % 60
  let parts : List (UptimeMonitor.DUnit × Nat) := []
  let parts := if days > 0 then parts ++ [(UptimeMonitor.DUnit.day, days)] else parts
  let parts := if hours > 0 then parts ++ [(UptimeMonitor.DUnit.hour, hours)] else parts
  let parts := if minutes > 0 then parts ++ [(UptimeMonitor.DUnit.minute, minutes)] else parts
  if secs > 0 ∨ parts = [] then parts ++ [(UptimeMonitor.DUnit.second, secs)] else parts

/-- HealthCheckServer.format_uptime: the tokens joined by a comma-space. -/
def format_uptime (s : Nat) : String :=
  String.intercalate ", " ((uptime_tokens s).map render_token)

/-- Identity record returned by the bound application's get_me query
(aiogram bot_info fields read in bot_status). -/
structure BotInfo where
  username : String
  id : Nat
  first_name : String
deriving DecidableEq, Repr

/-- JSON body and HTTP status of a GET /status response; fields absent from
a given branch of the handler are `none`. -/
structure StatusResponse where
  http_status : Nat
  bot_status : String
  bot_username : Option String
  bot_id : Option Nat
  bot_name : Option String
  error : Option String
deriving DecidableEq, Repr

/-- HealthCheckServer.bot_status (src/web_server.py lines 57-87). The
argument abstracts self.bot together with the awaited get_me call: `none`
when no application handle is bound, `some (Except.ok info)` when the
identity query succeeds, `some (Except.error e)` when it raises. Every
branch returns a response (web.json_response defaults to HTTP 200; the
except-arm passes status=500), so the handler is a total function. -/
def bot_status : Option (Except String BotInfo) → StatusResponse
  | some (Except.ok info) =>
    { http_status := 200
      bot_status := "running"
      bot_username := some info.username
      bot_id := some info.id
      bot_name := some info.first_name
      error := none }
  | none =>
    { http_status := 200
      bot_status := "not_initialized"
      bot_username := none
      bot_id := none
      bot_name := none
      error := none }
  | some (Except.error e) =>
    { http_status := 500
      bot_status := "error"
      bot_username := none
      bot_id := none
      bot_name := none
      error := some e }

/-- The AppRunner handed back by a successful start_server call. -/
structure Runner where
  port : Nat
deriving DecidableEq, Repr

/-- HealthCheckServer.start_server (src/web_server.py lines 141-158). The
argument abstracts the runner setup and TCP bind: ok on success, error on a
bind failure. The try-arm returns the runner; the except-arm logs and
re-raises, so the failure is surfaced to the caller unchanged. -/
def start_server : Except String Runner → Except String Runner
  | Except.ok runner => Except.ok runner
  | Except.error e => Except.error e

end HealthCheckServer

/-- on_startup (src/bot.py lines 46-55): awaits
web_server.start_server() inside a try whose except-arm only logs, so a
startup failure is absorbed and on_startup itself returns normally. -/
def on_startup (bindResult : Except String HealthCheckServer.Runner) : Except String Unit :=
  match HealthCheckServer.start_server bindResult with
  | Except.ok _ => Except.ok ()
  | Except.error _ => Except.ok ()

namespace UptimeMonitor

/-- Value of self.is_running after `t` completed sleeps, for a run in which
stop_monitoring is called while the loop is inside its k-th sleep (sleeps
are numbered from 1): the flag starts true and flips during sleep k, so it
reads false exactly once k or more sleeps have completed. -/
def is_running_at (k t : Nat) : Bool := decide (t < k)

/-- Result of a run of the monitoring loop: how many probes were issued,
how many sleeps completed, and whether the loop exited its while condition
(`terminated = false` means the modelling fuel ran out mid-loop). -/
structure LoopResult where
  probes : Nat
  sleeps : Nat
  terminated : Bool
deriving DecidableEq, Repr

/-- The while loop of UptimeMonitor.start_monitoring (src/keep_alive.py
lines 109-132) on its fault-free path, for a run in which stop_monitoring
arrives during sleep k. `i` is the number of the sleep about to start, so
the while condition reads the flag after i - 1 completed sleeps; after
sleeping, the body re-checks the flag (line 113) and probes only if it is
still true. Fuel bounds the number of loop iterations modelled. -/
def monitor_loop (k : Nat) : Nat → Nat → Nat → LoopResult
  | i, probes, 0 => { probes := probes, sleeps := i - 1, terminated := false }
  | i, probes, fuel + 1 =>
    if is_running_at k (i - 1) then
      monitor_loop k (i + 1) (if is_running_at k i then probes + 1 else probes) fuel
    else
      { probes := probes, sleeps := i - 1, terminated := true }

/-- UptimeMonitor.start_monitoring (src/keep_alive.py lines 99-132) on its
fault-free path: set is_running, probe once immediately (line 107), then
enter the while loop starting at sleep 1 with one probe on the books. -/
def start_monitoring (k fuel : Nat) : LoopResult :=
  monitor_loop k 1 1 fuel

end UptimeMonitor

/-- keep_alive(url, interval=300) (src/keep_alive.py lines 141-157)
constructs UptimeMonitor(url, interval): the timeout argument is not passed
through, so the constructor default applies. -/
def keep_alive (url : String) (interval : Option Nat) : MonitorState :=
  UptimeMonitor.init url (some (interval.getD 300)) none

/-- Claim C1: the spec asserts failed_pings <= ping_count after every mix of
probe outcomes. The code increments ping_count only inside the try block,
so a probe that raises (timeout, network error, unclassified fault)
increments failed_pings without ping_count: one timeout on a fresh monitor
already gives failed_pings = 1 > ping_count = 0, refuting the invariant. -/
theorem claim_C1_invariant_fails_on_timeout :
    (UptimeMonitor.run_probes
        (UptimeMonitor.init "http://localhost:8080/health" none none)
        [ProbeOutcome.timeoutError]).failed_pings = 1 ∧
    (UptimeMonitor.run_probes
        (UptimeMonitor.init "http://localhost:8080/health" none none)
        [ProbeOutcome.timeoutError]).ping_count = 0 := by
  exact ⟨rfl, rfl⟩

/-- Claim C2: the spec asserts that a timeout or network-level fault updates
the same counters as a non-200 response (ping_count and failed_pings each
once), and that the scenario 200, 200, connection-refused ends with
ping_count = 3, failed_pings = 1, success_rate about 66.67. In the code the
except-arms do not touch ping_count, so that scenario ends with
ping_count = 2, failed_pings = 1 and a reported success_rate of 50. -/
theorem claim_C2_exception_probes_skip_ping_count :
    (UptimeMonitor.run_probes
        (UptimeMonitor.init "http://localhost:8080/health" (some 1) (some 1))
        [ProbeOutcome.httpResponse 200, ProbeOutcome.httpResponse 200,
         ProbeOutcome.clientError]).ping_count = 2 ∧
    (UptimeMonitor.run_probes
        (UptimeMonitor.init "http://localhost:8080/health" (some 1) (some 1))
        [ProbeOutcome.httpResponse 200, ProbeOutcome.httpResponse 200,
         ProbeOutcome.clientError]).failed_pings = 1 ∧
    (UptimeMonitor.get_uptime_stats
        (UptimeMonitor.run_probes
          (UptimeMonitor.init "http://localhost:8080/health" (some 1) (some 1))
          [ProbeOutcome.httpResponse 200, ProbeOutcome.httpResponse 200,
           ProbeOutcome.clientError]) 3).success_rate = 50 := by
  refine ⟨rfl, rfl, ?_⟩
  norm_num [UptimeMonitor.get_uptime_stats, UptimeMonitor.run_probes,
    UptimeMonitor.ping_service, UptimeMonitor.init, round2]

/-- Claim C3: ping_service handles every outcome of the HTTP request,
including each caught exception class, by returning a boolean rather than
raising (it is a total function into MonitorState times Bool), and the
boolean is true exactly when the request completed with HTTP status 200. -/
theorem claim_C3_probe_returns_bool_iff_200 :
    ∀ (s : MonitorState) (o : ProbeOutcome) (now : Nat),
      (UptimeMonitor.ping_service s o now).2 = true ↔ o = ProbeOutcome.httpResponse 200 := by
  intro s o now
  cases o with
  | httpResponse status =>
    by_cases h : status = 200 <;> simp [UptimeMonitor.ping_service, h]
  | timeoutError => simp [UptimeMonitor.ping_service]
  | clientError => simp [UptimeMonitor.ping_service]
  | unexpectedError => simp [UptimeMonitor.ping_service]

/-- Claim C4: for every monitor state, the success_rate field of
get_uptime_stats is exactly 0 when ping_count = 0 and otherwise equals
(ping_count - failed_pings) / ping_count * 100 rounded to 2 decimal places,
as stated by spec_success_rate. -/
theorem claim_C4_success_rate_formula :
    ∀ (s : MonitorState) (uptime : Nat),
      (UptimeMonitor.get_uptime_stats s uptime).success_rate =
        spec_success_rate s.ping_count s.failed_pings := by
  intro s uptime
  rcases Nat.eq_zero_or_pos s.ping_count with h | h
  · simp [UptimeMonitor.get_uptime_stats, spec_success_rate, h, round2]
  · simp [UptimeMonitor.get_uptime_stats, spec_success_rate, h, Nat.pos_iff_ne_zero.mp h]

/-- Claim C5, counterexample: with the port bind failing concretely, the
process owner sees on_startup return normally, not the propagated failure:
bot.py's on_startup catches the exception from start_server and only logs
it, so the startup failure does not reach the process owner. -/
theorem claim_C5_counterexample :
    on_startup (Except.error "[Errno 98] address already in use") = Except.ok () := by
  rfl

/-- Claim C5, amended: HealthCheckServer.start_server itself never swallows
a bind failure; its except-arm re-raises, surfacing the error to its caller
unchanged. However, the caller on_startup in bot.py catches and logs the
error, so the failure stops there and the process does not exit non-zero. -/
theorem claim_C5_start_server_raises_caller_swallows :
    ∀ e : String,
      HealthCheckServer.start_server (Except.error e) = Except.error e ∧
      on_startup (Except.error e) = Except.ok () := by
  intro e
  exact ⟨rfl, rfl⟩

/-- Claim C6: GET /status returns bot_status not_initialized with HTTP 200
when no application handle is bound; bot_status running with the identity
fields and HTTP 200 when the identity query succeeds; bot_status error with
the message and HTTP 500 when the identity query fails. The handler is a
total function, so a query failure cannot crash the process. -/
theorem claim_C6_status_endpoint_cases :
    HealthCheckServer.bot_status none =
      { http_status := 200, bot_status := "not_initialized", bot_username := none,
        bot_id := none, bot_name := none, error := none } ∧
    (∀ info : HealthCheckServer.BotInfo,
      HealthCheckServer.bot_status (some (Except.ok info)) =
        { http_status := 200, bot_status := "running",
          bot_username := some info.username, bot_id := some info.id,
          bot_name := some info.first_name, error := none }) ∧
    (∀ e : String,
      HealthCheckServer.bot_status (some (Except.error e)) =
        { http_status := 500, bot_status := "error", bot_username := none,
          bot_id := none, bot_name := none, error := some e }) := by
  exact ⟨rfl, fun info => rfl, fun e => rfl⟩

/-- From sleep number i (1-based, at most k + 1) with enough fuel, the loop
probes once per remaining sleep that wakes before the stop takes effect and
then exits its while condition right after sleep k completes. -/
lemma monitor_loop_stop (k : Nat) :
    ∀ (fuel i probes : Nat), 1 ≤ i → i ≤ k + 1 → k + 1 - i < fuel →
      UptimeMonitor.monitor_loop k i probes fuel =
        { probes := probes + (k - i), sleeps := k, terminated := true } := by
  intro fuel
  induction fuel with
  | zero =>
    intro i probes h1 h2 h3
    omega
  | succ fuel ih =>
    intro i probes h1 h2 h3
    rw [UptimeMonitor.monitor_loop]
    by_cases hik : i ≤ k
    · have hw : UptimeMonitor.is_running_at k (i - 1) = true := by
        simp only [UptimeMonitor.is_running_at, decide_eq_true_eq]
        omega
      rw [hw, if_pos rfl]
      by_cases hlt : i < k
      · have hp : UptimeMonitor.is_running_at k i = true := by
          simp only [UptimeMonitor.is_running_at, decide_eq_true_eq]
          omega
        rw [hp, if_pos rfl, ih (i + 1) (probes + 1) (by omega) (by omega) (by omega)]
        have harith : probes + 1 + (k - (i + 1)) = probes + (k - i) := by omega
        rw [harith]
      · have hp : UptimeMonitor.is_running_at k i = false := by
          simp only [UptimeMonitor.is_running_at, decide_eq_false_iff_not]
          omega
        rw [hp, if_neg (by simp), ih (i + 1) probes (by omega) (by omega) (by omega)]
        have harith : probes + (k - (i + 1)) = probes + (k - i) := by omega
        rw [harith]
    · have hw : UptimeMonitor.is_running_at k (i - 1) = false := by
        simp only [UptimeMonitor.is_running_at, decide_eq_false_iff_not]
        omega
      rw [hw, if_neg (by simp)]
      have hi : i - 1 = k := by omega
      have hkk : k - i = 0 := by omega
      rw [hi, hkk, Nat.add_zero]

/-- Claim C7: when stop_monitoring is called during the k-th sleep of the
loop, is_running reads false from that point on, the loop exits its while
condition at the wake ending sleep k (at the next scheduled wake time, with
no extra iteration for any larger fuel), and exactly k probes were issued:
the immediate startup probe plus one after each of the k - 1 sleeps that
completed before the stop, hence no probe after the stop request. -/
theorem claim_C7_stop_terminates_loop (k fuel : Nat) (hk : 1 ≤ k) (hf : k < fuel) :
    UptimeMonitor.start_monitoring k fuel =
      { probes := k, sleeps := k, terminated := true } ∧
    ∀ t, k ≤ t → UptimeMonitor.is_running_at k t = false := by
  constructor
  · rw [UptimeMonitor.start_monitoring,
      monitor_loop_stop k fuel 1 1 le_rfl (by omega) (by omega)]
    have harith : 1 + (k - 1) = k := by omega
    rw [harith]
  · intro t ht
    simp only [UptimeMonitor.is_running_at, decide_eq_false_iff_not]
    omega

/-- Witness for claim C7 at k = 2, fuel = 5: stopping during the second
sleep ends the run with exactly 2 probes and 2 completed sleeps. -/
theorem claim_C7_witness :
    1 ≤ 2 ∧ 2 < 5 ∧
    UptimeMonitor.start_monitoring 2 5 =
      { probes := 2, sleeps := 2, terminated := true } :=
  ⟨by decide, by decide, (claim_C7_stop_terminates_loop 2 5 (by decide) (by decide)).1⟩

/-- The token list built by format_duration is the one the spec describes:
ordered day-hour-minute-second, zero units omitted, seconds kept whenever
all other units are zero. -/
lemma duration_tokens_eq_spec (s : Nat) :
    UptimeMonitor.duration_tokens s = spec_duration_tokens s := by
  unfold UptimeMonitor.duration_tokens spec_duration_tokens
  by_cases h1 : s / 86400 = 0 <;> by_cases h2 : s % 86400 / 3600 = 0 <;>
    by_cases h3 : s % 3600 / 60 = 0 <;> by_cases h4 : s % 60 = 0 <;>
    simp [h1, h2, h3, h4, Nat.pos_iff_ne_zero, List.filter]

/-- The spec-described token list is never empty: either a nonzero unit
contributes a token, or the always-included zero-seconds token does. -/
lemma spec_duration_tokens_ne_nil (s : Nat) : spec_duration_tokens s ≠ [] := by
  unfold spec_duration_tokens
  by_cases h1 : s / 86400 = 0 <;> by_cases h2 : s % 86400 / 3600 = 0 <;>
    by_cases h3 : s % 3600 / 60 = 0 <;> by_cases h4 : s % 60 = 0 <;>
    simp [h1, h2, h3, h4, Nat.pos_iff_ne_zero, List.filter]

/-- Claim C8: for every nonnegative seconds value the format_duration token
list matches the spec description (truncating decomposition, day-hour-
minute-second order, zero units omitted, seconds included when all other
units are zero) and is never empty; concretely, input 0 yields the single
zero-seconds token and input 90061 yields all four unit tokens in order. -/
theorem claim_C8_format_duration_tokens :
    (∀ s : Nat, UptimeMonitor.duration_tokens s = spec_duration_tokens s ∧
      UptimeMonitor.duration_tokens s ≠ []) ∧
    UptimeMonitor.duration_tokens 0 = [(UptimeMonitor.DUnit.second, 0)] ∧
    UptimeMonitor.duration_tokens 90061 =
      [(UptimeMonitor.DUnit.day, 1), (UptimeMonitor.DUnit.hour, 1),
       (UptimeMonitor.DUnit.minute, 1), (UptimeMonitor.DUnit.second, 1)] := by
  refine ⟨fun s => ⟨duration_tokens_eq_spec s, ?_⟩, by decide, by decide⟩
  rw [duration_tokens_eq_spec s]
  exact spec_duration_tokens_ne_nil s

/-- Claim C9: for every nonnegative seconds value the HealthCheckServer
uptime formatter and the UptimeMonitor duration formatter build token lists
with the same units, in the same order, with the same numeric values; the
rendered strings differ per token only in the unit-name text attached to
the numeral (a one-letter suffix versus a pluralized Russian name). -/
theorem claim_C9_formatters_agree :
    (∀ s : Nat, HealthCheckServer.uptime_tokens s = UptimeMonitor.duration_tokens s) ∧
    (∀ v : Nat,
      UptimeMonitor.render_token (UptimeMonitor.DUnit.day, v) = toString v ++ "д" ∧
      UptimeMonitor.render_token (UptimeMonitor.DUnit.hour, v) = toString v ++ "ч" ∧
      UptimeMonitor.render_token (UptimeMonitor.DUnit.minute, v) = toString v ++ "м" ∧
      UptimeMonitor.render_token (UptimeMonitor.DUnit.second, v) = toString v ++ "с" ∧
      HealthCheckServer.render_token (UptimeMonitor.DUnit.day, v) =
        toString v ++ " " ++ HealthCheckServer.day_name v ∧
      HealthCheckServer.render_token (UptimeMonitor.DUnit.hour, v) =
        toString v ++ " " ++ HealthCheckServer.hour_name v ∧
      HealthCheckServer.render_token (UptimeMonitor.DUnit.minute, v) =
        toString v ++ " " ++ HealthCheckServer.minute_name v ∧
      HealthCheckServer.render_token (UptimeMonitor.DUnit.second, v) =
        toString v ++ " " ++ HealthCheckServer.second_name v) := by
  exact ⟨fun s => rfl, fun v => ⟨rfl, rfl, rfl, rfl, rfl, rfl, rfl, rfl⟩⟩

/-- Claim C10: keep_alive(url, interval) builds its UptimeMonitor without a
timeout argument, so the monitor carries the constructor default of 10
seconds per probe, the same value a bare construction defaults to, no
matter which interval was chosen; the entry point has no way to change it. -/
theorem claim_C10_keep_alive_default_timeout :
    ∀ (url : String) (interval : Option Nat),
      (keep_alive url interval).timeout = 10 ∧
      (keep_alive url interval).timeout = (UptimeMonitor.init url none none).timeout ∧
      (keep_alive url interval).interval = interval.getD 300 := by
  intro url interval
  exact ⟨rfl, rfl, rfl⟩
